import Mathlib

/-!
Verification of `src/infra/cleanup-function/main.py` (Teable dev-environment
cleanup Cloud Function).

Modelling conventions:
* Python strings are modelled as lists of Unicode codepoints (`List Nat`);
  `pyStr` converts a Lean string literal to this representation. `str.lower`,
  `str.isalnum` and `str.replace` are modelled at the codepoint level with the
  ASCII ranges the repository's inputs use.
* `datetime.fromisoformat` is Python-library code, not repository code; it is
  modelled as an oracle `parse : List Nat → Option Int` returning the parsed
  timestamp in whole seconds since the epoch (`none` models `ValueError`).
  Theorems quantify over the oracle. The `.replace("Z", "+00:00")`
  preprocessing the code performs before parsing is modelled explicitly
  (`zReplace`).
* `datetime` subtraction and `timedelta(hours=h)` comparison are exact, so they
  are modelled as integer arithmetic on seconds (timestamps at one-second
  resolution).
* The remote compute API (snapshot delete/insert, instance delete, operation
  waiters) is modelled by an outcome environment `StopEnv` giving the terminal
  result of each remote step of one stop attempt, and `stop_instance` returns,
  besides its boolean result, the trace of remote mutating calls it issued, in
  order. An exception raised by a step is modelled by its failure outcome; the
  `try/except` structure of the Python code is reflected in how outcomes
  propagate. `:.1f` float formatting is modelled as exact rational rounding to
  one decimal (round half to even).
-/

namespace Cleanup

/-- Codepoints of a Lean string literal: the model of a Python `str`. -/
def pyStr (s : String) : List Nat := s.toList.map Char.toNat

/-- Python `str.lower` on one ASCII codepoint. -/
def pyLowerCh (c : Nat) : Nat := if 65 ≤ c ∧ c ≤ 90 then c + 32 else c

/-- Python `str.lower` on a string. -/
def pyLowerStr (s : List Nat) : List Nat := s.map pyLowerCh

/-- One step of Python `str.replace(a, b)` for one-codepoint `a`, `b`. -/
def repCh (a b c : Nat) : Nat := if c = a then b else c

/-- Python `str.replace(a, b)` for one-codepoint `a`, `b`. -/
def replaceCh (a b : Nat) (s : List Nat) : List Nat :=
  s.map (repCh a b)

/-- Python `str.isalnum` on one codepoint (ASCII ranges `0-9`, `A-Z`, `a-z`). -/
def isAlnumCh (c : Nat) : Bool :=
  (48 ≤ c && c ≤ 57) || (65 ≤ c && c ≤ 90) || (97 ≤ c && c ≤ 122)

/-- The per-character step of `get_snapshot_name`:
`c if c.isalnum() or c == '-' else '-'` (45 is `-`). -/
def sanitizeCh (c : Nat) : Nat := if isAlnumCh c || c = 45 then c else 45

/-- The sanitisation pipeline of `get_snapshot_name` (main.py lines 96-97):
`username.lower().replace("@", "-").replace(".", "-")` followed by the
alphanumeric-or-dash filter.  64 is `@`, 46 is `.`. -/
def sanitizeUsername (username : List Nat) : List Nat :=
  (replaceCh 46 45 (replaceCh 64 45 (pyLowerStr username))).map sanitizeCh

/-- `get_snapshot_name` (main.py lines 94-98):
`f"dev-snapshot-{sanitized}"`. -/
def get_snapshot_name (username : List Nat) : List Nat :=
  pyStr "dev-snapshot-" ++ sanitizeUsername username

/-- The `user` label put on the snapshot in `stop_instance` (main.py line 132):
`username.lower().replace("@", "-").replace(".", "-")[:63]` — note: no
alphanumeric filtering, unlike `get_snapshot_name`. -/
def user_label (username : List Nat) : List Nat :=
  (replaceCh 46 45 (replaceCh 64 45 (pyLowerStr username))).take 63

/-- The composed per-character action of `sanitizeUsername`. -/
def nameCh (c : Nat) : Nat := sanitizeCh (repCh 46 45 (repCh 64 45 (pyLowerCh c)))

/-- The per-character action of the `user` label (lowercase, `@`/`.` to `-`,
nothing else replaced). -/
def labelCh (c : Nat) : Nat := repCh 46 45 (repCh 64 45 (pyLowerCh c))

/-- The snapshot-name character rule as the spec words it: lowercase; `@` and
`.` become `-`; every remaining character that is not alphanumeric or `-`
becomes `-`. -/
def specNameCh (c : Nat) : Nat :=
  if pyLowerCh c = 64 ∨ pyLowerCh c = 46 then 45
  else if isAlnumCh (pyLowerCh c) || pyLowerCh c = 45 then pyLowerCh c
  else 45

/-! ### Instance metadata and the idle classifier -/

/-- One entry of `instance.metadata.items`. -/
structure MetadataItem where
  key : List Nat
  value : List Nat
deriving DecidableEq

/-- The slice of a compute instance this system reads: its name and metadata.
`instance.metadata` being unset and `instance.metadata.items` being empty both
behave as the empty item list in `get_metadata_value`, so both are modelled by
`[]`. -/
structure Instance where
  name : List Nat
  metadata : List MetadataItem
deriving DecidableEq

/-- The loop of `get_metadata_value`: first item with an exactly matching key. -/
def lookupMeta : List MetadataItem → List Nat → Option (List Nat)
  | [], _ => none
  | item :: rest, key => if item.key = key then some item.value else lookupMeta rest key

/-- `get_metadata_value` (main.py lines 46-54). -/
def get_metadata_value (inst : Instance) (key : List Nat) : Option (List Nat) :=
  lookupMeta inst.metadata key

/-- Python truthiness of an optional string (`if last_active_str:`):
`None` and the empty string are falsy. -/
def truthy : Option (List Nat) → Bool
  | none => false
  | some s => !s.isEmpty

/-- `s.replace("Z", "+00:00")` (90 is `Z`): each `Z` codepoint becomes the six
codepoints of `+00:00`. -/
def zReplace : List Nat → List Nat
  | [] => []
  | c :: rest => (if c = 90 then pyStr "+00:00" else [c]) ++ zReplace rest

/-- Round `n / d` to the nearest integer, ties to even (the rounding of
Python `:.1f` formatting, idealised over exact rationals). -/
def roundHalfEven (n d : Nat) : Nat :=
  let q := n / d
  let r := n % d
  if 2 * r < d then q
  else if d < 2 * r then q + 1
  else if q % 2 = 0 then q else q + 1

/-- Decimal digit codepoints of a natural number (fuel-based). -/
def digitsAux : Nat → Nat → List Nat
  | 0, _ => []
  | fuel + 1, n => if n < 10 then [48 + n] else digitsAux fuel (n / 10) ++ [48 + n % 10]

/-- Decimal rendering of a natural number as codepoints. -/
def natToStr (n : Nat) : List Nat := digitsAux (n + 1) n

/-- `{secs / 3600:.1f}` for a nonnegative number of seconds: the hour count
rounded to one decimal, rendered `intpart.tenthdigit`. -/
def fmtTenths (secs : Nat) : List Nat :=
  let tenths := roundHalfEven (secs * 10) 3600
  natToStr (tenths / 10) ++ [46] ++ natToStr (tenths % 10)

/-- `f"{idle_time.total_seconds() / 3600:.1f}"` where the timedelta is `secs`
seconds (45 is the minus sign). -/
def fmtHours1 (secs : Int) : List Nat :=
  if secs < 0 then 45 :: fmtTenths secs.natAbs else fmtTenths secs.natAbs

def lastActiveKey : List Nat := pyStr "last-active-at"
def createdAtKey : List Nat := pyStr "created-at"
def usernameKey : List Nat := pyStr "username"

/-- `should_delete_instance` (main.py lines 57-91), parameterised by the
`datetime.fromisoformat` oracle `parse`, the `IDLE_TIMEOUT_HOURS`
configuration, and `now` (seconds since epoch).  Returns the
`(should_stop, reason)` pair.  `timedelta(hours=h)` compares equal to
`h * 3600` seconds.  The `try/except ValueError: pass` around each parse is
modelled by the `none` branches falling through. -/
def should_delete_instance (parse : List Nat → Option Int)
    (idleTimeoutHours now : Int) (inst : Instance) : Bool × List Nat :=
  let last_active_str := get_metadata_value inst lastActiveKey
  let created_at_str := get_metadata_value inst createdAtKey
  let firstBranch : Option (Bool × List Nat) :=
    if truthy last_active_str then
      match parse (zReplace (last_active_str.getD [])) with
      | some last_active =>
        let idle := now - last_active
        if idleTimeoutHours * 3600 < idle then
          some (true, pyStr "Idle for " ++ fmtHours1 idle ++ pyStr " hours")
        else none
      | none => none
    else none
  match firstBranch with
  | some r => r
  | none =>
    let secondBranch : Option (Bool × List Nat) :=
      if truthy created_at_str then
        match parse (zReplace (created_at_str.getD [])) with
        | some created_at =>
          let age := now - created_at
          if truthy last_active_str = false ∧ idleTimeoutHours * 3600 < age then
            some (true, pyStr "No activity tracking, age: " ++ fmtHours1 age ++ pyStr " hours")
          else none
        | none => none
      else none
    match secondBranch with
    | some r => r
    | none => (false, pyStr "Still active")

/-! ### The stop sequencer -/

def PROJECT_ID : List Nat := pyStr "teable-666"
def ZONE : List Nat := pyStr "asia-east2-a"
def IDLE_TIMEOUT_HOURS_DEFAULT : Int := 12

/-- Terminal outcome of the delete-old-snapshot step (call plus wait): success,
an exception whose text contains `404` or `NOT_FOUND`, or any other
exception. -/
inductive Outcome where
  | success
  | errNotFound
  | errOther
deriving DecidableEq

/-- The terminal results the remote control plane hands one stop attempt:
the delete-old-snapshot step, the snapshot insert-and-wait (`true` = the
operation reached `DONE` without error; `false` = an exception, in particular
`Operation failed`), and the instance delete-and-wait. -/
structure StopEnv where
  deleteOldResult : Outcome
  createResult : Bool
  deleteInstanceResult : Bool
deriving DecidableEq

/-- The snapshot resource built in `stop_instance` (main.py lines 126-133).
39 is the apostrophe in the description text. -/
structure Snapshot where
  name : List Nat
  source_disk : List Nat
  description : List Nat
  label_purpose : List Nat
  label_user : List Nat
deriving DecidableEq

def mkSnapshot (instance_name username : List Nat) : Snapshot :=
  { name := get_snapshot_name username
    source_disk :=
      pyStr "projects/" ++ PROJECT_ID ++ pyStr "/zones/" ++ ZONE ++
        pyStr "/disks/" ++ instance_name
    description := pyStr "Auto-saved snapshot for " ++ username ++ [39] ++
      pyStr "s dev environment"
    label_purpose := pyStr "dev-env-snapshot"
    label_user := user_label username }

/-- Observable remote mutating calls a stop attempt issues, in order, each
carrying its terminal result; `warnDeleteOld` is the logged warning for a
non-404 failure of the delete-old step. -/
inductive Event where
  | deleteOldSnapshot (name : List Nat) (result : Outcome)
  | warnDeleteOld
  | createSnapshot (snap : Snapshot) (ok : Bool)
  | deleteInstance (iname : List Nat) (ok : Bool)
deriving DecidableEq

/-- `stop_instance` (main.py lines 101-155) over the outcome environment
`env`: returns the boolean the Python function returns and the trace of remote
calls issued.  The inner `try/except` swallows any delete-old failure (warning
only when the text lacks `404`/`NOT_FOUND`); the snapshot insert is always
issued; on its failure the outer `except` returns `False` before any instance
delete; the instance delete is issued only after a successful snapshot, and its
failure also reaches the outer `except` and returns `False`. -/
def stop_instance (env : StopEnv) (instance_name username : List Nat) :
    Bool × List Event :=
  let snapshot_name := get_snapshot_name username
  let deleteOldTrace : List Event :=
    if env.deleteOldResult = Outcome.errOther then
      [Event.deleteOldSnapshot snapshot_name env.deleteOldResult, Event.warnDeleteOld]
    else
      [Event.deleteOldSnapshot snapshot_name env.deleteOldResult]
  let createTrace := deleteOldTrace ++
    [Event.createSnapshot (mkSnapshot instance_name username) env.createResult]
  if env.createResult then
    (env.deleteInstanceResult,
      createTrace ++ [Event.deleteInstance instance_name env.deleteInstanceResult])
  else
    (false, createTrace)

/-- The remote state a stop attempt can change: whether this user's snapshot
exists and whether the instance exists. -/
structure CloudState where
  snapshotExists : Bool
  instanceExists : Bool
deriving DecidableEq

/-- Effect of one remote call on the remote state. -/
def applyEvent (s : CloudState) : Event → CloudState
  | Event.deleteOldSnapshot _ r =>
      if r = Outcome.success then { s with snapshotExists := false } else s
  | Event.warnDeleteOld => s
  | Event.createSnapshot _ ok =>
      if ok then { s with snapshotExists := true } else s
  | Event.deleteInstance _ ok =>
      if ok then { s with instanceExists := false } else s

def runTrace (s : CloudState) (t : List Event) : CloudState := t.foldl applyEvent s

/-- Scans a trace and checks that every instance-delete call is preceded by a
successful snapshot creation (the flag records whether one has succeeded so
far). -/
def deleteGuarded : Bool → List Event → Bool
  | _, [] => true
  | snapOk, Event.createSnapshot _ ok :: rest => deleteGuarded (snapOk || ok) rest
  | snapOk, Event.deleteInstance _ _ :: rest => snapOk && deleteGuarded snapOk rest
  | snapOk, Event.deleteOldSnapshot _ _ :: rest => deleteGuarded snapOk rest
  | snapOk, Event.warnDeleteOld :: rest => deleteGuarded snapOk rest

/-! ### The handler -/

/-- One record of the `stopped` / `kept` lists. -/
structure SummaryEntry where
  name : List Nat
  username : List Nat
  reason : List Nat
deriving DecidableEq

/-- The JSON document `cleanup_handler` returns (the `timestamp` field, a
rendering of the wall clock, is outside the model). -/
structure RunResult where
  stopped : List SummaryEntry
  kept : List SummaryEntry
  summary : List Nat
deriving DecidableEq

/-- `get_metadata_value(instance, "username") or "unknown"`: Python `or`
falls back on `None` and on the empty string. -/
def usernameOf (inst : Instance) : List Nat :=
  match get_metadata_value inst usernameKey with
  | some s => if s.isEmpty then pyStr "unknown" else s
  | none => pyStr "unknown"

/-- One iteration of the `for instance in instances` loop of
`cleanup_handler` (main.py lines 215-233), threading the `stopped` and `kept`
accumulators. -/
def handlerStep (parse : List Nat → Option Int) (idleTimeoutHours now : Int)
    (stopEnv : Instance → StopEnv)
    (acc : List SummaryEntry × List SummaryEntry) (inst : Instance) :
    List SummaryEntry × List SummaryEntry :=
  let r := should_delete_instance parse idleTimeoutHours now inst
  let username := usernameOf inst
  if r.1 then
    if (stop_instance (stopEnv inst) inst.name username).1 then
      (acc.1 ++ [{ name := inst.name, username := username, reason := r.2 }], acc.2)
    else acc
  else
    (acc.1, acc.2 ++ [{ name := inst.name, username := username, reason := r.2 }])

/-- `cleanup_handler` (main.py lines 197-244) over the listed instances, the
parse oracle and the per-instance stop outcomes.  The summary string is
`f"Stopped {len(stopped)}, kept {len(kept)} environment(s)"`. -/
def cleanup_handler (parse : List Nat → Option Int) (idleTimeoutHours now : Int)
    (stopEnv : Instance → StopEnv) (instances : List Instance) : RunResult :=
  let p := instances.foldl (handlerStep parse idleTimeoutHours now stopEnv) ([], [])
  { stopped := p.1
    kept := p.2
    summary := pyStr "Stopped " ++ natToStr p.1.length ++ pyStr ", kept " ++
      natToStr p.2.length ++ pyStr " environment(s)" }

/-- `(should_delete_instance ...).1` as a per-instance Bool. -/
def shouldStopB (parse : List Nat → Option Int) (idleTimeoutHours now : Int)
    (inst : Instance) : Bool :=
  (should_delete_instance parse idleTimeoutHours now inst).1

/-- Whether the stop attempt for `inst` succeeds under `stopEnv`. -/
def stopOkB (stopEnv : Instance → StopEnv) (inst : Instance) : Bool :=
  (stop_instance (stopEnv inst) inst.name (usernameOf inst)).1

/-- The summary record the handler builds for `inst`. -/
def entryOf (parse : List Nat → Option Int) (idleTimeoutHours now : Int)
    (inst : Instance) : SummaryEntry :=
  { name := inst.name
    username := usernameOf inst
    reason := (should_delete_instance parse idleTimeoutHours now inst).2 }

/-! ### Concrete inputs used as witnesses -/

/-- A concrete `datetime.fromisoformat` oracle: accepts exactly the epoch
instant in the `+00:00` form (the image of `"1970-01-01T00:00:00Z"` under
`zReplace`) and rejects everything else. -/
def parse0 (s : List Nat) : Option Int :=
  if s = pyStr "1970-01-01T00:00:00+00:00" then some 0 else none

/-- Instance with a malformed `last-active-at` and an epoch `created-at`. -/
def instMalformed : Instance :=
  { name := pyStr "dev-alice"
    metadata :=
      [ { key := pyStr "last-active-at", value := pyStr "not-a-date" },
        { key := pyStr "created-at", value := pyStr "1970-01-01T00:00:00Z" } ] }

/-- Instance whose `last-active-at` is the epoch instant. -/
def instEpochActive : Instance :=
  { name := pyStr "dev-bob"
    metadata :=
      [ { key := pyStr "last-active-at", value := pyStr "1970-01-01T00:00:00Z" },
        { key := pyStr "username", value := pyStr "bob" } ] }

/-- A stop environment where the old snapshot is deleted successfully and the
new snapshot creation then fails. -/
def envCreateFails : StopEnv :=
  { deleteOldResult := Outcome.success
    createResult := false
    deleteInstanceResult := false }

/-! ## Character-level lemmas about the naming pipeline -/

theorem nameCh_eq_specNameCh (c : Nat) : nameCh c = specNameCh c := by
  unfold nameCh specNameCh repCh sanitizeCh
  split_ifs <;> simp_all [isAlnumCh] <;> omega

theorem sanitizeUsername_eq_map (u : List Nat) : sanitizeUsername u = u.map nameCh := by
  simp [sanitizeUsername, replaceCh, pyLowerStr, List.map_map]
  exact fun a _ => rfl

/-- Every character the sanitisation pipeline emits is a dash, a digit, or a
lowercase ASCII letter. -/
theorem nameCh_shape (c : Nat) :
    nameCh c = 45 ∨ (48 ≤ nameCh c ∧ nameCh c ≤ 57) ∨ (97 ≤ nameCh c ∧ nameCh c ≤ 122) := by
  unfold nameCh repCh sanitizeCh pyLowerCh isAlnumCh
  split_ifs <;> simp_all <;> omega

/-- The pipeline fixes dashes, digits and lowercase ASCII letters. -/
theorem nameCh_fix (c : Nat)
    (h : c = 45 ∨ (48 ≤ c ∧ c ≤ 57) ∨ (97 ≤ c ∧ c ≤ 122)) : nameCh c = c := by
  unfold nameCh repCh sanitizeCh pyLowerCh isAlnumCh
  split_ifs <;> simp_all <;> omega

theorem nameCh_idem (c : Nat) : nameCh (nameCh c) = nameCh c :=
  nameCh_fix (nameCh c) (nameCh_shape c)

/-! ## The claims -/

/-- C8 (confirmed): `get_snapshot_name` agrees with the reference rule — apply
`specNameCh` to every character (lowercase; `@` and `.` to `-`; remaining
non-alphanumeric non-dash characters to `-`) and prepend `dev-snapshot-`; in
particular on `"Alice@Example.com"` it yields
`"dev-snapshot-alice-example-com"`. -/
theorem C8_snapshot_name_reference (u : List Nat) :
    get_snapshot_name u = pyStr "dev-snapshot-" ++ u.map specNameCh ∧
    get_snapshot_name (pyStr "Alice@Example.com") = pyStr "dev-snapshot-alice-example-com" := by
  constructor
  · rw [get_snapshot_name, sanitizeUsername_eq_map]
    have : nameCh = specNameCh := funext nameCh_eq_specNameCh
    rw [this]
  · decide

/-- C2 (counterexample): `get_snapshot_name` is not idempotent — on the
username `"alice"` its output is `"dev-snapshot-alice"`, and applying the
function to that output yields `"dev-snapshot-dev-snapshot-alice"`, a
different string. -/
theorem C2_cex :
    get_snapshot_name (get_snapshot_name (pyStr "alice")) ≠ get_snapshot_name (pyStr "alice") := by
  decide

/-- C2 (amended): applying `get_snapshot_name` to its own output prepends the
`dev-snapshot-` marker again: `f (f u) = "dev-snapshot-" ++ f u`.  The
sanitisation core of the function is idempotent; only the unconditional
re-prefixing breaks idempotence of the whole function. -/
theorem C2_amended (u : List Nat) :
    get_snapshot_name (get_snapshot_name u) =
      pyStr "dev-snapshot-" ++ get_snapshot_name u ∧
    sanitizeUsername (sanitizeUsername u) = sanitizeUsername u := by
  have hidem : sanitizeUsername (sanitizeUsername u) = sanitizeUsername u := by
    rw [sanitizeUsername_eq_map u, sanitizeUsername_eq_map, List.map_map]
    have : nameCh ∘ nameCh = nameCh := funext nameCh_idem
    rw [this]
  refine ⟨?_, hidem⟩
  show pyStr "dev-snapshot-" ++ sanitizeUsername (pyStr "dev-snapshot-" ++ sanitizeUsername u) = _
  rw [sanitizeUsername_eq_map (pyStr "dev-snapshot-" ++ sanitizeUsername u), List.map_append]
  have hfix : (pyStr "dev-snapshot-").map nameCh = pyStr "dev-snapshot-" := by decide
  rw [hfix, ← sanitizeUsername_eq_map (sanitizeUsername u), hidem, get_snapshot_name]

/-- C10 (confirmed): the `user` label on the created snapshot is the username
processed character by character with only lowercasing and `@`/`.`-to-`-`
replacement (`labelCh`), truncated to 63 characters — no alphanumeric
filtering.  On `"a_b+c"` the label keeps `_` and `+` verbatim while the
snapshot-name sanitisation turns both into `-`. -/
theorem C10_user_label (iname u : List Nat) :
    (mkSnapshot iname u).label_user = (u.map labelCh).take 63 ∧
    user_label (pyStr "a_b+c") = pyStr "a_b+c" ∧
    sanitizeUsername (pyStr "a_b+c") = pyStr "a-b-c" := by
  refine ⟨?_, by decide, by decide⟩
  show user_label u = _
  rw [user_label, replaceCh, replaceCh, pyLowerStr, List.map_map, List.map_map]
  congr 1

/-- C1 (counterexample): an instance whose `last-active-at` is present but
unparseable (`"not-a-date"`) and whose `created-at` parses to the epoch is
classified `should_stop = false` at `now` = 13 hours past the epoch with a
12-hour timeout, although the claim demands `stop = true` via the
`created-at` rule. -/
theorem C1_cex :
    get_metadata_value instMalformed lastActiveKey = some (pyStr "not-a-date") ∧
    parse0 (zReplace (pyStr "not-a-date")) = none ∧
    get_metadata_value instMalformed createdAtKey = some (pyStr "1970-01-01T00:00:00Z") ∧
    parse0 (zReplace (pyStr "1970-01-01T00:00:00Z")) = some 0 ∧
    (12 : Int) * 3600 < 46800 - 0 ∧
    should_delete_instance parse0 12 46800 instMalformed = (false, pyStr "Still active") := by
  decide

/-- C1 (amended): a present-but-unparseable `last-active-at` never raises, but
it does not fall through to the `created-at` rule either: the fallback is
guarded by `not last_active_str`, so whenever `last-active-at` is present and
non-empty and its parse fails, the classifier returns
`(false, "Still active")` regardless of `created-at`. -/
theorem C1_amended (parse : List Nat → Option Int) (idleTimeoutHours now : Int)
    (inst : Instance) (s : List Nat)
    (hla : get_metadata_value inst lastActiveKey = some s) (hne : s ≠ [])
    (hp : parse (zReplace s) = none) :
    should_delete_instance parse idleTimeoutHours now inst = (false, pyStr "Still active") := by
  have ht : truthy (get_metadata_value inst lastActiveKey) = true := by
    rw [hla]; simpa [truthy, List.isEmpty_iff] using hne
  simp only [should_delete_instance, hla, Option.getD_some, hp, ht]
  cases hc : get_metadata_value inst createdAtKey with
  | none => simp [truthy]
  | some t =>
    cases hpc : parse (zReplace t) <;> simp [hpc, truthy, List.isEmpty_iff, hne]

/-- C1 (witness): the amended rule applied to the concrete malformed
instance. -/
theorem C1_witness :
    should_delete_instance parse0 12 46800 instMalformed = (false, pyStr "Still active") :=
  C1_amended parse0 12 46800 instMalformed (pyStr "not-a-date") (by decide) (by decide)
    (by decide)

/-- C6 (confirmed): the idle comparison is strict.  With a parseable non-empty
`last-active-at` timestamp `t`: when `now - t` equals the timeout exactly the
classifier keeps the instance (`(false, "Still active")`); when `now - t`
strictly exceeds it, the classifier stops it with the idle duration formatted
in hours to one decimal place. -/
theorem C6_strict (parse : List Nat → Option Int) (idleTimeoutHours now t : Int)
    (inst : Instance) (s : List Nat)
    (hla : get_metadata_value inst lastActiveKey = some s) (hne : s ≠ [])
    (hp : parse (zReplace s) = some t) :
    (now - t = idleTimeoutHours * 3600 →
      should_delete_instance parse idleTimeoutHours now inst = (false, pyStr "Still active")) ∧
    (idleTimeoutHours * 3600 < now - t →
      should_delete_instance parse idleTimeoutHours now inst =
        (true, pyStr "Idle for " ++ fmtHours1 (now - t) ++ pyStr " hours")) := by
  have ht : truthy (get_metadata_value inst lastActiveKey) = true := by
    rw [hla]; simpa [truthy, List.isEmpty_iff] using hne
  constructor
  · intro hb
    have hnl : ¬ (idleTimeoutHours * 3600 < now - t) := by omega
    simp only [should_delete_instance, hla, Option.getD_some, hp, ht, if_neg hnl]
    cases hc : get_metadata_value inst createdAtKey with
    | none => simp [truthy]
    | some c =>
      cases hpc : parse (zReplace c) <;> simp [hpc, truthy, List.isEmpty_iff, hne]
  · intro hlt
    simp only [should_delete_instance, hla, Option.getD_some, hp, ht, if_pos hlt]
    simp [truthy, List.isEmpty_iff, hne]

/-- C6 (witness): boundary (exactly 12 hours: kept) and strict excess
(13 hours: stopped, reason `"Idle for 13.0 hours"`) on a concrete instance. -/
theorem C6_witness :
    should_delete_instance parse0 12 43200 instEpochActive = (false, pyStr "Still active") ∧
    should_delete_instance parse0 12 46800 instEpochActive =
      (true, pyStr "Idle for " ++ fmtHours1 (46800 - 0) ++ pyStr " hours") :=
  ⟨(C6_strict parse0 12 43200 0 instEpochActive (pyStr "1970-01-01T00:00:00Z")
      (by decide) (by decide) (by decide)).1 (by decide),
   (C6_strict parse0 12 46800 0 instEpochActive (pyStr "1970-01-01T00:00:00Z")
      (by decide) (by decide) (by decide)).2 (by decide)⟩

/-- C3 (confirmed): in every stop attempt, each instance-delete call in the
trace is preceded by a successful snapshot creation; when the snapshot
operation fails, the attempt returns `false` and no instance-delete call is
issued at all. -/
theorem C3_no_delete_without_snapshot (env : StopEnv) (iname u : List Nat) :
    deleteGuarded false (stop_instance env iname u).2 = true ∧
    (env.createResult = false →
      (stop_instance env iname u).1 = false ∧
      ∀ n ok, Event.deleteInstance n ok ∉ (stop_instance env iname u).2) := by
  obtain ⟨d, c, di⟩ := env
  cases d <;> cases c <;> cases di <;>
    simp [stop_instance, deleteGuarded]

/-- C3 (witness): with a failing snapshot creation the attempt returns `false`
and its trace satisfies the delete-after-snapshot guard. -/
theorem C3_witness :
    (stop_instance envCreateFails (pyStr "dev-bob") (pyStr "bob")).1 = false ∧
    deleteGuarded false (stop_instance envCreateFails (pyStr "dev-bob") (pyStr "bob")).2 = true :=
  ⟨((C3_no_delete_without_snapshot envCreateFails (pyStr "dev-bob") (pyStr "bob")).2 rfl).1,
   (C3_no_delete_without_snapshot envCreateFails (pyStr "dev-bob") (pyStr "bob")).1⟩

/-- C4 (confirmed): `stop_instance` returns `true` exactly when both the
snapshot creation and the instance deletion succeeded; every failure outcome
(modelling every exception caught by the top-level `except`) yields `false`,
never an unhandled fault — the function is total over all outcome
environments. -/
theorem C4_result_iff_both (env : StopEnv) (iname u : List Nat) :
    (stop_instance env iname u).1 = (env.createResult && env.deleteInstanceResult) := by
  obtain ⟨d, c, di⟩ := env
  cases c <;> cases di <;> simp [stop_instance]

/-- C7 (confirmed): whatever the outcome of deleting the prior snapshot, the
stop sequence issues the snapshot-creation call; a warning is logged exactly
when that deletion failed with a non-404/NOT_FOUND error, so a not-found
outcome is swallowed silently. -/
theorem C7_delete_old_best_effort (env : StopEnv) (iname u : List Nat) :
    Event.createSnapshot (mkSnapshot iname u) env.createResult ∈ (stop_instance env iname u).2 ∧
    (Event.warnDeleteOld ∈ (stop_instance env iname u).2 ↔
      env.deleteOldResult = Outcome.errOther) := by
  obtain ⟨d, c, di⟩ := env
  cases d <;> cases c <;> simp [stop_instance]

/-- C9 (confirmed): the delete-prior-snapshot call is always the first remote
call of a stop attempt, before the snapshot creation; hence when the old
snapshot is deleted successfully and the creation then fails, the attempt
returns `false` and leaves the user with no snapshot while the instance
survives — the sequence is not atomic on error. -/
theorem C9_not_atomic (env : StopEnv) (iname u : List Nat) :
    (stop_instance env iname u).2.head? =
      some (Event.deleteOldSnapshot (get_snapshot_name u) env.deleteOldResult) ∧
    (env.deleteOldResult = Outcome.success → env.createResult = false →
      (stop_instance env iname u).1 = false ∧
      runTrace { snapshotExists := true, instanceExists := true } (stop_instance env iname u).2 =
        { snapshotExists := false, instanceExists := true }) := by
  obtain ⟨d, c, di⟩ := env
  cases d <;> cases c <;> simp [stop_instance, runTrace, applyEvent]

/-- C9 (witness): the concrete create-fails environment run from the state
where both the old snapshot and the instance exist. -/
theorem C9_witness :
    (stop_instance envCreateFails (pyStr "dev-bob") (pyStr "bob")).1 = false ∧
    runTrace { snapshotExists := true, instanceExists := true }
        (stop_instance envCreateFails (pyStr "dev-bob") (pyStr "bob")).2 =
      { snapshotExists := false, instanceExists := true } :=
  (C9_not_atomic envCreateFails (pyStr "dev-bob") (pyStr "bob")).2 rfl rfl

theorem handlerStep_eq (parse : List Nat → Option Int) (idleTimeoutHours now : Int)
    (stopEnv : Instance → StopEnv) (acc : List SummaryEntry × List SummaryEntry)
    (i : Instance) :
    handlerStep parse idleTimeoutHours now stopEnv acc i =
      if shouldStopB parse idleTimeoutHours now i then
        (if stopOkB stopEnv i then
          (acc.1 ++ [entryOf parse idleTimeoutHours now i], acc.2)
        else acc)
      else (acc.1, acc.2 ++ [entryOf parse idleTimeoutHours now i]) := by
  rcases acc with ⟨a, b⟩
  simp only [handlerStep, shouldStopB, stopOkB, entryOf]

theorem handler_foldl (parse : List Nat → Option Int) (idleTimeoutHours now : Int)
    (stopEnv : Instance → StopEnv) (l : List Instance) :
    ∀ a b : List SummaryEntry,
      l.foldl (handlerStep parse idleTimeoutHours now stopEnv) (a, b) =
        (a ++ l.filterMap (fun i =>
            if shouldStopB parse idleTimeoutHours now i then
              (if stopOkB stopEnv i then some (entryOf parse idleTimeoutHours now i) else none)
            else none),
         b ++ l.filterMap (fun i =>
            if shouldStopB parse idleTimeoutHours now i then none
            else some (entryOf parse idleTimeoutHours now i))) := by
  induction l with
  | nil => intro a b; simp
  | cons i rest ih =>
    intro a b
    rw [List.foldl_cons, handlerStep_eq, List.filterMap_cons, List.filterMap_cons]
    cases hs : shouldStopB parse idleTimeoutHours now i with
    | false => simp only [hs, if_neg Bool.false_ne_true, Bool.false_eq_true, ite_false, ih,
        List.append_assoc, List.singleton_append]
    | true =>
      cases hk : stopOkB stopEnv i with
      | false => simp [hs, hk, ih]
      | true => simp [hs, hk, ih]

/-- C5 (confirmed): over any run, `stopped` is exactly the instances
classified stop whose stop attempt succeeded (each with its summary record),
`kept` is exactly the instances classified keep; an instance classified stop
whose attempt fails contributes to neither list; and the summary string is
`"Stopped <N>, kept <M> environment(s)"` with `N`, `M` the lengths of the two
lists. -/
theorem C5_handler (parse : List Nat → Option Int) (idleTimeoutHours now : Int)
    (stopEnv : Instance → StopEnv) (instances : List Instance) :
    (cleanup_handler parse idleTimeoutHours now stopEnv instances).stopped =
      instances.filterMap (fun i =>
        if shouldStopB parse idleTimeoutHours now i then
          (if stopOkB stopEnv i then some (entryOf parse idleTimeoutHours now i) else none)
        else none) ∧
    (cleanup_handler parse idleTimeoutHours now stopEnv instances).kept =
      instances.filterMap (fun i =>
        if shouldStopB parse idleTimeoutHours now i then none
        else some (entryOf parse idleTimeoutHours now i)) ∧
    (cleanup_handler parse idleTimeoutHours now stopEnv instances).summary =
      pyStr "Stopped " ++
        natToStr (cleanup_handler parse idleTimeoutHours now stopEnv instances).stopped.length ++
      pyStr ", kept " ++
        natToStr (cleanup_handler parse idleTimeoutHours now stopEnv instances).kept.length ++
      pyStr " environment(s)" := by
  have h := handler_foldl parse idleTimeoutHours now stopEnv instances [] []
  refine ⟨?_, ?_, ?_⟩
  · simp [cleanup_handler, h]
  · simp [cleanup_handler, h]
  · simp [cleanup_handler]

end Cleanup
